import Mathlib

set_option maxRecDepth 100000

/-!
Verification development for the false-positive classification pipeline of
`ai_false_positive_filter.py` (class `AIFalsePositiveFilter`).

The Python code is shallowly embedded as executable Lean definitions:

* Python strings are Lean `String`s; `str.lower()` maps `Char.toLower`
  over the characters (the strings exercised here are ASCII, where the
  two agree).
* Python `re.search` is modelled by a small Brzozowski-derivative matcher
  over an abstract syntax tree (`Re`) that covers exactly the constructs
  used by the regex literals in the source: literal characters, escaped
  metacharacters, `\d`, character classes, `.`, alternation groups, `*`,
  `+`, and a trailing `$` anchor (handled by a dedicated suffix search).
  `re.IGNORECASE` is modelled by lower-casing both pattern literals and
  the subject text.
* `hashlib.md5(...).hexdigest()` is implemented in full (RFC 1321) over
  the UTF-8 bytes of the input, with 32-bit words as `Nat` mod 2^32.
* Network I/O of the AI backends (aiohttp calls to Ollama/HuggingFace)
  and `json.loads` of data received from the network are inherently
  external; they are modelled as an explicit environment value `AIEnv`
  describing what each backend call produced.
* Python floats carrying the confidence scores are modelled as `Rat`;
  every confidence literal in the source (0.9, 0.8, 0.5, 0.3, 0.0) and
  every arithmetic step on them is exact in decimal.
-/

/-! ## A regex matcher modelling Python `re.search` for the source's patterns -/

/-- Regex abstract syntax. `emp` matches nothing, `eps` the empty string,
`chr c` the single character `c`, `dot` any character except a newline
(Python `.` without `re.DOTALL`), `digit` is `\d` (ASCII digits suffice for
the source's patterns), `cls l` a character class, `alt`/`seq`/`star` the
usual combinators. -/
inductive Re where
  | emp : Re
  | eps : Re
  | chr : Char → Re
  | dot : Re
  | digit : Re
  | cls : List Char → Re
  | alt : Re → Re → Re
  | seq : Re → Re → Re
  | star : Re → Re
deriving DecidableEq, Repr

namespace Re

/-- Does the regex accept the empty string? -/
def nullable : Re → Bool
  | emp => false
  | eps => true
  | chr _ => false
  | dot => false
  | digit => false
  | cls _ => false
  | alt r1 r2 => nullable r1 || nullable r2
  | seq r1 r2 => nullable r1 && nullable r2
  | star _ => true

/-- Smart alternation constructor keeping derivatives small. -/
def mkAlt : Re → Re → Re
  | emp, r => r
  | r, emp => r
  | r1, r2 => if r1 = r2 then r1 else alt r1 r2

/-- Smart concatenation constructor keeping derivatives small. -/
def mkSeq : Re → Re → Re
  | emp, _ => emp
  | _, emp => emp
  | eps, r => r
  | r, eps => r
  | r1, r2 => seq r1 r2

/-- Brzozowski derivative of a regex with respect to one character. -/
def deriv : Re → Char → Re
  | emp, _ => emp
  | eps, _ => emp
  | chr c, a => if a = c then eps else emp
  | dot, a => if a = Char.ofNat 10 then emp else eps
  | digit, a => if Char.ofNat 48 ≤ a ∧ a ≤ Char.ofNat 57 then eps else emp
  | cls l, a => if a ∈ l then eps else emp
  | alt r1 r2, a => mkAlt (deriv r1 a) (deriv r2 a)
  | seq r1 r2, a =>
      if nullable r1 then mkAlt (mkSeq (deriv r1 a) r2) (deriv r2 a)
      else mkSeq (deriv r1 a) r2
  | star r, a => mkSeq (deriv r a) (star r)

/-- Whole-list match: the regex accepts exactly the given character list. -/
def matchFull (r : Re) (cs : List Char) : Bool :=
  nullable (cs.foldl deriv r)

/-- Does some initial segment of `cs` (possibly empty) match `r`? -/
def matchSomeInit : Re → List Char → Bool
  | r, [] => nullable r
  | r, c :: cs => nullable r || matchSomeInit (deriv r c) cs

/-- Unanchored search over a character list: some substring matches `r`.
This is the semantics of Python `re.search` (truthiness of the match). -/
def searchList : Re → List Char → Bool
  | r, [] => nullable r
  | r, c :: cs => matchSomeInit r (c :: cs) || searchList r cs

/-- `re.search(pattern, s)` for an anchor-free pattern. -/
def search (r : Re) (s : String) : Bool :=
  searchList r s.toList

/-- Lower-case every literal character of a regex (for `re.IGNORECASE`). -/
def lowerRe : Re → Re
  | emp => emp
  | eps => eps
  | chr c => chr c.toLower
  | dot => dot
  | digit => digit
  | cls l => cls (l.map Char.toLower)
  | alt r1 r2 => alt (lowerRe r1) (lowerRe r2)
  | seq r1 r2 => seq (lowerRe r1) (lowerRe r2)
  | star r => star (lowerRe r)

/-- `re.search(pattern, s, re.IGNORECASE)`: for the ASCII patterns of the
source this is equivalent to lower-casing both pattern and subject. -/
def searchCI (r : Re) (s : String) : Bool :=
  searchList (lowerRe r) (s.toList.map Char.toLower)

/-- Search for a suffix of `cs` fully matching `r`: the semantics of
`re.search` for a pattern ending in the `$` anchor, whose body is `r`. -/
def searchSuffix : Re → List Char → Bool
  | r, [] => nullable r
  | r, c :: cs => matchFull r (c :: cs) || searchSuffix r cs

/-- `re.search(body ++ "$", s)`. -/
def searchEnd (r : Re) (s : String) : Bool :=
  searchSuffix r s.toList

/-- Sequence a list of regexes left to right. -/
def seqList : List Re → Re
  | [] => eps
  | [r] => r
  | r :: rs => seq r (seqList rs)

/-- Literal string regex. -/
def lit (s : String) : Re :=
  seqList (s.toList.map chr)

/-- n-ary alternation. -/
def altList : List Re → Re
  | [] => emp
  | [r] => r
  | r :: rs => alt r (altList rs)

/-- `\d+`. -/
def digits1 : Re := seq digit (star digit)

end Re

section ReTests

example : Re.search (Re.lit "abc") "xxabcy" = true := by decide
example : Re.search (Re.lit "abc") "xxaby" = false := by decide
example : Re.search (Re.seq (Re.lit "a") (Re.seq (Re.star Re.dot) (Re.lit "c"))) "xaBBc" = true := by decide
example : Re.searchCI (Re.lit "abc") "xABCy" = true := by decide
example : Re.searchEnd (Re.lit "old") "f.old" = true := by decide
example : Re.searchEnd (Re.lit "old") "f.oldx" = false := by decide
example : Re.search (Re.seq (Re.lit "i=") Re.digits1) "xi=12y" = true := by decide
example : Re.search (Re.seq (Re.lit "i=") Re.digits1) "xi=y" = false := by decide

end ReTests

/-! ## MD5 (RFC 1321), modelling `hashlib.md5(content.encode()).hexdigest()` -/

/-- 32-bit modular addition. -/
def add32 (a b : Nat) : Nat := (a + b) % 4294967296

/-- 32-bit bitwise complement (arguments stay below 2^32 throughout). -/
def not32 (x : Nat) : Nat := 4294967295 - x % 4294967296

/-- 32-bit left rotation. -/
def rotl32 (x n : Nat) : Nat :=
  (x % 4294967296) * 2 ^ n % 4294967296 + x % 4294967296 / 2 ^ (32 - n)

/-- The 64 MD5 sine-derived constants. -/
def md5K : List Nat :=
  [0xd76aa478, 0xe8c7b756, 0x242070db, 0xc1bdceee,
   0xf57c0faf, 0x4787c62a, 0xa8304613, 0xfd469501,
   0x698098d8, 0x8b44f7af, 0xffff5bb1, 0x895cd7be,
   0x6b901122, 0xfd987193, 0xa679438e, 0x49b40821,
   0xf61e2562, 0xc040b340, 0x265e5a51, 0xe9b6c7aa,
   0xd62f105d, 0x02441453, 0xd8a1e681, 0xe7d3fbc8,
   0x21e1cde6, 0xc33707d6, 0xf4d50d87, 0x455a14ed,
   0xa9e3e905, 0xfcefa3f8, 0x676f02d9, 0x8d2a4c8a,
   0xfffa3942, 0x8771f681, 0x6d9d6122, 0xfde5380c,
   0xa4beea44, 0x4bdecfa9, 0xf6bb4b60, 0xbebfbc70,
   0x289b7ec6, 0xeaa127fa, 0xd4ef3085, 0x04881d05,
   0xd9d4d039, 0xe6db99e5, 0x1fa27cf8, 0xc4ac5665,
   0xf4292244, 0x432aff97, 0xab9423a7, 0xfc93a039,
   0x655b59c3, 0x8f0ccc92, 0xffeff47d, 0x85845dd1,
   0x6fa87e4f, 0xfe2ce6e0, 0xa3014314, 0x4e0811a1,
   0xf7537e82, 0xbd3af235, 0x2ad7d2bb, 0xeb86d391]

/-- The 64 MD5 per-round left-rotation amounts. -/
def md5S : List Nat :=
  [7, 12, 17, 22, 7, 12, 17, 22, 7, 12, 17, 22, 7, 12, 17, 22,
   5, 9, 14, 20, 5, 9, 14, 20, 5, 9, 14, 20, 5, 9, 14, 20,
   4, 11, 16, 23, 4, 11, 16, 23, 4, 11, 16, 23, 4, 11, 16, 23,
   6, 10, 15, 21, 6, 10, 15, 21, 6, 10, 15, 21, 6, 10, 15, 21]

/-- One MD5 operation (step `i` of 64) on state `(a,b,c,d)`; `m j` is the
`j`-th little-endian 32-bit word of the current block. -/
def md5Round (m : Nat → Nat) (st : Nat × Nat × Nat × Nat) (i : Nat) :
    Nat × Nat × Nat × Nat :=
  let (a, b, c, d) := st
  let fg : Nat × Nat :=
    if i < 16 then ((b &&& c) ||| (not32 b &&& d), i)
    else if i < 32 then ((d &&& b) ||| (not32 d &&& c), (5 * i + 1) % 16)
    else if i < 48 then (b ^^^ c ^^^ d, (3 * i + 5) % 16)
    else (c ^^^ (b ||| not32 d), 7 * i % 16)
  let tmp := add32 a (add32 fg.1 (add32 (md5K.getD i 0) (m fg.2)))
  (d, add32 b (rotl32 tmp (md5S.getD i 0)), b, c)

/-- Process one 64-byte block. -/
def md5Block (st : Nat × Nat × Nat × Nat) (block : List Nat) :
    Nat × Nat × Nat × Nat :=
  let m : Nat → Nat := fun j =>
    block.getD (4 * j) 0 + 256 * block.getD (4 * j + 1) 0 +
      65536 * block.getD (4 * j + 2) 0 + 16777216 * block.getD (4 * j + 3) 0
  let r := (List.range 64).foldl (md5Round m) st
  (add32 st.1 r.1, add32 st.2.1 r.2.1, add32 st.2.2.1 r.2.2.1,
   add32 st.2.2.2 r.2.2.2)

/-- MD5 padding: a 0x80 byte, zeros to 56 mod 64, then the original length
in bits as a little-endian 64-bit quantity. -/
def md5Pad (msg : List Nat) : List Nat :=
  let z := (55 + 64 - msg.length % 64) % 64
  let bitLen := msg.length * 8 % 2 ^ 64
  msg ++ 128 :: List.replicate z 0 ++
    (List.range 8).map (fun i => bitLen / 2 ^ (8 * i) % 256)

/-- Fold the block function over `n` consecutive 64-byte blocks. -/
def md5Blocks (st : Nat × Nat × Nat × Nat) (bytes : List Nat) :
    Nat → Nat × Nat × Nat × Nat
  | 0 => st
  | n + 1 => md5Blocks (md5Block st (bytes.take 64)) (bytes.drop 64) n

/-- Hexadecimal digit character. -/
def hexDigit (n : Nat) : Char :=
  if n < 10 then Char.ofNat (48 + n) else Char.ofNat (87 + n)

/-- Lowercase hex rendering of one 32-bit word, least significant byte
first, as in an MD5 hex digest. -/
def wordHexLE (w : Nat) : List Char :=
  ((List.range 4).map (fun i => w / 2 ^ (8 * i) % 256)).foldr
    (fun b acc => hexDigit (b / 16) :: hexDigit (b % 16) :: acc) []

/-- `hashlib.md5(bytes).hexdigest()`: the 32-character lowercase hex digest. -/
def md5Hex (msg : List Nat) : String :=
  let padded := md5Pad msg
  let st := md5Blocks (0x67452301, 0xefcdab89, 0x98badcfe, 0x10325476)
    padded (padded.length / 64)
  String.mk (wordHexLE st.1 ++ wordHexLE st.2.1 ++ wordHexLE st.2.2.1 ++
    wordHexLE st.2.2.2)

/-- UTF-8 encoding of one code point. -/
def utf8Bytes (c : Char) : List Nat :=
  let n := c.toNat
  if n < 128 then [n]
  else if n < 2048 then [192 + n / 64, 128 + n % 64]
  else if n < 65536 then [224 + n / 4096, 128 + n / 64 % 64, 128 + n % 64]
  else [240 + n / 262144, 128 + n / 4096 % 64, 128 + n / 64 % 64, 128 + n % 64]

/-- UTF-8 bytes of a string, modelling Python `str.encode()`. -/
def strBytes (s : String) : List Nat :=
  (s.toList.map utf8Bytes).flatten

section Md5Tests

example : md5Hex (strBytes "") = "d41d8cd98f00b204e9800998ecf8427e" := by decide
example : md5Hex (strBytes "abc") = "900150983cd24fb0d6963f7d28e17f72" := by decide
example : md5Hex (strBytes "abcdefghijklmnopqrstuvwxyz") =
    "c3fcd3d76192e4007dfb496cca67e13b" := by decide

end Md5Tests

/-! ## Data model

`VulnerabilityFindings` embeds the dataclass of the same name (source
lines 19-31).  The `ai_analysis` dict attached by the classifier holds a
varying set of keys depending on which step produced it, so it is embedded
as a record of `Option` fields, one per key name the source ever stores;
`none` models an absent key.  Values coming out of `json.loads` on AI
responses are modelled at their expected types with arbitrary values. -/

/-- The `ai_analysis` dictionary: each field models one possible key. -/
structure AIAnalysis where
  method : Option String := none
  reasoning : Option String := none
  confidence : Option Rat := none
  is_false_positive : Option Bool := none
  risk_factors : Option (List String) := none
  recommended_action : Option String := none
deriving DecidableEq, Repr

/-- The `VulnerabilityFindings` dataclass (source lines 19-31), with the
same defaults for the derived fields. -/
structure VulnerabilityFindings where
  id : String
  type : String
  severity : String
  url : String
  title : String
  description : String
  evidence : String
  source_tool : String
  confidence : Rat := 0
  is_false_positive : Bool := false
  ai_analysis : Option AIAnalysis := none
deriving DecidableEq, Repr

/-- Boolean infix test on lists (first argument occurs contiguously in
the second). -/
def infixOf (needle : List Char) : List Char → Bool
  | [] => needle.isEmpty
  | c :: t => needle.isPrefixOf (c :: t) || infixOf needle t

/-- Python substring test `needle in hay`. -/
def strIn (needle hay : String) : Bool :=
  infixOf needle.toList hay.toList

/-- Python `s.lower()` (ASCII). -/
def lowerStr (s : String) : String :=
  String.mk (s.toList.map Char.toLower)

/-- Python `s[:n]` character slice. -/
def strTake (s : String) (n : Nat) : String :=
  String.mk (s.toList.take n)

/-- A single-quote character, kept out of string literals. -/
def sQuote : String := String.mk [Char.ofNat 39]

/-- Character class `[\'"]`. -/
def quoteCls : Re := Re.cls [Char.ofNat 39, Char.ofNat 34]

/-! ## The pattern tables (source lines 44-69 and 130-135)

Each entry pairs the raw Python regex literal (used verbatim inside the
reason strings the source interpolates) with its meaning as a `Re`. -/

/-- `self.fp_indicators['nuclei']` (source lines 45-53). -/
def nuclei_fp_indicators : List (String × Re) :=
  [("test\\.php\\?id=\\d+", Re.seq (Re.lit "test.php?id=") Re.digits1),
   ("example\\.com", Re.lit "example.com"),
   ("localhost:\\d+", Re.seq (Re.lit "localhost:") Re.digits1),
   ("127\\.0\\.0\\.1", Re.lit "127.0.0.1"),
   ("staging\\.", Re.lit "staging."),
   ("dev\\.", Re.lit "dev.")]

/-- `self.fp_indicators['xss']` (source lines 54-61). -/
def xss_fp_indicators : List (String × Re) :=
  [("alert\\([\\" ++ sQuote ++ "\"]test[\\" ++ sQuote ++ "\"]\\)",
    Re.seqList [Re.lit "alert(", quoteCls, Re.lit "test", quoteCls, Re.lit ")"]),
   ("console\\.log", Re.lit "console.log"),
   ("<script>.*</script>",
    Re.seqList [Re.lit "<script>", Re.star Re.dot, Re.lit "</script>"]),
   ("javascript:void\\(0\\)", Re.lit "javascript:void(0)"),
   ("onclick=[\\" ++ sQuote ++ "\"].*[\\" ++ sQuote ++ "\"]",
    Re.seqList [Re.lit "onclick=", quoteCls, Re.star Re.dot, quoteCls])]

/-- `self.fp_indicators['sqli']` (source lines 62-68). -/
def sqli_fp_indicators : List (String × Re) :=
  [("mysql_error", Re.lit "mysql_error"),
   ("Database connection failed", Re.lit "Database connection failed"),
   ("syntax error.*mysql",
    Re.seqList [Re.lit "syntax error", Re.star Re.dot, Re.lit "mysql"]),
   ("You have an error in your SQL", Re.lit "You have an error in your SQL")]

/-- `self.fp_indicators.get(finding.source_tool, [])` (source line 112). -/
def fp_indicators (source_tool : String) : List (String × Re) :=
  if source_tool = "nuclei" then nuclei_fp_indicators
  else if source_tool = "xss" then xss_fp_indicators
  else if source_tool = "sqli" then sqli_fp_indicators
  else []

/-- `generic_fp_patterns` (source lines 130-135). -/
def generic_fp_patterns : List (String × Re) :=
  [("test\\d*\\.(php|jsp|asp|html)",
    Re.seqList [Re.lit "test", Re.star Re.digit, Re.chr '.',
      Re.altList [Re.lit "php", Re.lit "jsp", Re.lit "asp", Re.lit "html"]]),
   ("example\\.(com|org|net)",
    Re.seqList [Re.lit "example", Re.chr '.',
      Re.altList [Re.lit "com", Re.lit "org", Re.lit "net"]]),
   ("dummy|sample|fake|mock",
    Re.altList [Re.lit "dummy", Re.lit "sample", Re.lit "fake", Re.lit "mock"]),
   ("staging|dev|test|demo",
    Re.altList [Re.lit "staging", Re.lit "dev", Re.lit "test", Re.lit "demo"])]

/-! ## The classifier functions -/

/-- `_generate_finding_hash` (source lines 98-101): the MD5 hex digest of
`type:url:title:evidence`. -/
def generate_finding_hash (finding : VulnerabilityFindings) : String :=
  md5Hex (strBytes (finding.type ++ ":" ++ finding.url ++ ":" ++
    finding.title ++ ":" ++ finding.evidence))

/-- Source lines 111-143 of `check_pattern_based_fp`: the tool-specific
loops (url, then evidence, then title, each with `re.IGNORECASE`) followed
by the generic patterns over the lower-cased combined text.  Split out of
`check_pattern_based_fp` (which additionally consults the verified-hash
set first) so theorems can speak about the pattern cascade alone. -/
def tool_and_generic_pattern_check (finding : VulnerabilityFindings) :
    Bool × String :=
  let source_patterns := fp_indicators finding.source_tool
  match source_patterns.find? (fun p => Re.searchCI p.2 finding.url) with
  | some p => (true, "URL matches FP pattern: " ++ p.1)
  | none =>
  match source_patterns.find? (fun p => Re.searchCI p.2 finding.evidence) with
  | some p => (true, "Evidence matches FP pattern: " ++ p.1)
  | none =>
  match source_patterns.find? (fun p => Re.searchCI p.2 finding.title) with
  | some p => (true, "Title matches FP pattern: " ++ p.1)
  | none =>
  let combined_text :=
    lowerStr (finding.url ++ " " ++ finding.title ++ " " ++ finding.evidence)
  match generic_fp_patterns.find? (fun p => Re.search p.2 combined_text) with
  | some p => (true, "Generic FP pattern matched: " ++ p.1)
  | none => (false, "")

/-- `check_pattern_based_fp` (source lines 103-143).  The verified
false-positive hash set (`self.verified_fps`, a Python set of strings) is
passed explicitly as a list with membership semantics. -/
def check_pattern_based_fp (verified_fps : List String)
    (finding : VulnerabilityFindings) : Bool × String :=
  let finding_hash := generate_finding_hash finding
  if verified_fps.contains finding_hash then
    (true, "Previously verified false positive")
  else tool_and_generic_pattern_check finding

/-- `save_verified_fp` (source lines 390-403), restricted to its in-memory
effect: `self.verified_fps.add(finding_hash)`.  (The JSON persistence is
file I/O; on save failure the source logs and keeps the in-memory set,
so the in-memory insertion models the observable state in either case.) -/
def save_verified_fp (verified_fps : List String) (finding_hash : String) :
    List String :=
  finding_hash :: verified_fps

/-- `dev_indicators` (source line 305). -/
def dev_indicators : List String :=
  ["localhost", "127.0.0.1", "dev.", "staging.", "test.", "demo."]

/-- `test_indicators` (source line 311). -/
def test_indicators : List String :=
  ["test", "sample", "demo", "example", "dummy"]

/-- Body of `r'\.(txt|log|bak|old)$'` (source line 322); the `$` anchor is
realised by `Re.searchEnd`. -/
def nonexec_ext_re : Re :=
  Re.seq (Re.chr '.')
    (Re.altList [Re.lit "txt", Re.lit "log", Re.lit "bak", Re.lit "old"])

/-- `_analyze_context` (source lines 301-329). -/
def analyze_context (finding : VulnerabilityFindings) : Bool × String :=
  match dev_indicators.find? (fun ind => strIn ind (lowerStr finding.url)) with
  | some ind => (true, "Development environment detected: " ++ ind)
  | none =>
  let combined_content :=
    lowerStr (finding.title ++ " " ++ finding.description ++ " " ++
      finding.evidence)
  match test_indicators.find? (fun ind => strIn ind combined_content) with
  | some ind => (true, "Test content detected: " ++ ind)
  | none =>
  if Re.search (Re.lit "/test/") finding.url then
    (true, "Test directory in URL path")
  else if Re.searchEnd nonexec_ext_re finding.url then
    (true, "Non-executable file extension")
  else if strIn "404" finding.evidence || strIn "403" finding.evidence then
    (true, "HTTP error status in evidence")
  else (false, "")

/-! ## The AI fallback step

`ai_analyze_finding` (source lines 145-235) builds a prompt from the
finding and performs network I/O: an aiohttp POST to Ollama, then, on any
failure, one to HuggingFace, then an "ultimate fallback" dictionary.  The
network and the `json.loads` parse of network-supplied text are external
to the program, so each backend call's outcome is an explicit environment
value.  The prompt string itself flows only into the external call and
never into the returned analysis, so it is not reconstructed here. -/

/-- Outcome of the Ollama POST (source lines 177-207).  `err` is any
exception (connection error, timeout, non-JSON response body).  `ok`
carries the HTTP status, the result of extracting and `json.loads`-ing
the brace-delimited slice of the response text (`none` when extraction
or parsing fails, source lines 193-201), and `data.get('response', '')`
itself (source line 190). -/
inductive OllamaOutcome where
  | err : OllamaOutcome
  | ok (status : Nat) (json_extract : Option AIAnalysis)
      (response_field : String) : OllamaOutcome
deriving DecidableEq, Repr

/-- Outcome of the HuggingFace POST (source lines 210-226).  `err` is any
exception; `ok` carries the HTTP status and
`data[0].get('generated_text', '')` when the JSON body is a nonempty
list (`none` when it is not, in which case the source falls through). -/
inductive HFOutcome where
  | err : HFOutcome
  | ok (status : Nat) (generated_text : Option String) : HFOutcome
deriving DecidableEq, Repr

/-- What the two backend calls for one finding produced. -/
structure AIEnv where
  ollama : OllamaOutcome
  hf : HFOutcome
deriving DecidableEq, Repr

/-- `fp_indicators` of `_parse_ai_response_text` (source line 244). -/
def fp_text_indicators : List String :=
  ["false positive", "not exploitable", "benign", "safe", "test content"]

/-- `real_indicators` of `_parse_ai_response_text` (source line 245). -/
def real_text_indicators : List String :=
  ["exploitable", "vulnerability", "security risk", "malicious"]

/-- `fp_score` of `_parse_ai_response_text` (source line 247):
`sum(1 for indicator in fp_indicators if indicator in response_lower)`,
taking the already lower-cased text. -/
def fp_text_score (response_lower : String) : Int :=
  (fp_text_indicators.map
    (fun ind => if strIn ind response_lower then (1 : Int) else 0)).sum

/-- `real_score` of `_parse_ai_response_text` (source line 248). -/
def real_text_score (response_lower : String) : Int :=
  (real_text_indicators.map
    (fun ind => if strIn ind response_lower then (1 : Int) else 0)).sum

/-- `_parse_ai_response_text` (source lines 237-259): the degraded text
heuristic applied when structured JSON parsing of the AI response fails. -/
def parse_ai_response_text (response_text : String) : AIAnalysis :=
  let response_lower := lowerStr response_text
  let fp_score : Int := fp_text_score response_lower
  let real_score : Int := real_text_score response_lower
  let is_fp : Bool := fp_score > real_score
  let confidence : Rat :=
    min 0.8 (max 0.3 (((fp_score - real_score).natAbs : Rat) / 10))
  { is_false_positive := some is_fp,
    confidence := some confidence,
    reasoning :=
      some ("Text analysis based on response: " ++ strTake response_text 200
        ++ "..."),
    risk_factors := some [],
    recommended_action := some "verify_manually" }

/-- The "ultimate fallback" dictionary (source lines 229-235); note it
carries no `method` key. -/
def ai_unavailable_analysis : AIAnalysis :=
  { is_false_positive := some false,
    confidence := some 0,
    reasoning := some "AI analysis unavailable",
    risk_factors := some [],
    recommended_action := some "verify_manually" }

/-- The HuggingFace leg of `ai_analyze_finding` (source lines 210-235),
reached when the Ollama leg produced no return. -/
def huggingface_fallback (env : AIEnv) : AIAnalysis :=
  match env.hf with
  | .err => ai_unavailable_analysis
  | .ok status generated_text =>
    if status = 200 then
      match generated_text with
      | some t => parse_ai_response_text t
      | none => ai_unavailable_analysis
    else ai_unavailable_analysis

/-- `ai_analyze_finding` (source lines 145-235) as a function of the
backend outcomes.  A total function: every exception in the source body
is caught inside it. -/
def ai_analyze_finding (env : AIEnv) (_finding : VulnerabilityFindings) :
    AIAnalysis :=
  match env.ollama with
  | .err => huggingface_fallback env
  | .ok status json_extract response_field =>
    if status = 200 then
      match json_extract with
      | some j => j
      | none => parse_ai_response_text response_field
    else huggingface_fallback env

/-- `comprehensive_fp_analysis` (source lines 261-299): pattern check,
then context analysis, then the AI step.  The `try/except` around the AI
step (source lines 290-298) is dead in this model because the modelled
`ai_analyze_finding` is total, exactly as the source function is after
its own exception handlers. -/
def comprehensive_fp_analysis (verified_fps : List String) (env : AIEnv)
    (finding : VulnerabilityFindings) : VulnerabilityFindings :=
  let pattern_result := check_pattern_based_fp verified_fps finding
  if pattern_result.1 then
    { finding with
      is_false_positive := true,
      confidence := 0.9,
      ai_analysis := some { method := some "pattern_matching",
                            reasoning := some pattern_result.2,
                            confidence := some 0.9 } }
  else
    let context_result := analyze_context finding
    if context_result.1 then
      { finding with
        is_false_positive := true,
        confidence := 0.8,
        ai_analysis := some { method := some "context_analysis",
                              reasoning := some context_result.2,
                              confidence := some 0.8 } }
    else
      let ai := ai_analyze_finding env finding
      { finding with
        ai_analysis := some ai,
        is_false_positive := ai.is_false_positive.getD false,
        confidence := ai.confidence.getD 0.5 }

/-! ## Batch filtering (`filter_findings_batch`, source lines 331-388) -/

/-- One element of the input list of finding dictionaries: each key may be
absent.  (Keys other than the eight read by the source are irrelevant.) -/
structure RawFinding where
  id : Option String := none
  type : Option String := none
  severity : Option String := none
  url : Option String := none
  title : Option String := none
  description : Option String := none
  evidence : Option String := none
  source_tool : Option String := none
deriving DecidableEq, Repr

/-- The `VulnerabilityFindings(...)` construction with `.get` defaults
(source lines 339-348); `i` is the position in the input list. -/
def to_vulnerability_finding (i : Nat) (finding : RawFinding) :
    VulnerabilityFindings :=
  { id := finding.id.getD (toString i),
    type := finding.type.getD "unknown",
    severity := finding.severity.getD "medium",
    url := finding.url.getD "",
    title := finding.title.getD "",
    description := finding.description.getD "",
    evidence := finding.evidence.getD "",
    source_tool := finding.source_tool.getD "unknown" }

/-- The `analyzed_findings` list (source lines 351-357): every converted
finding run through `comprehensive_fp_analysis`, in order.  `envs i` is
what the AI backends returned for the `i`-th finding's calls. -/
def analyze_batch (verified_fps : List String) (envs : Nat → AIEnv)
    (findings : List RawFinding) : List VulnerabilityFindings :=
  findings.enum.map
    (fun p => comprehensive_fp_analysis verified_fps (envs p.1)
      (to_vulnerability_finding p.1 p.2))

/-- The loop counter `false_positive_count` at the end of the analysis
loop (source lines 353-360): how many analyzed findings were labelled
false positives.  The source prints this count (source line 367); it is
not part of the return value. -/
def false_positive_count (analyzed : List VulnerabilityFindings) : Nat :=
  analyzed.countP (fun a => a.is_false_positive)

/-- One output dictionary (source lines 374-385). -/
structure OutputFinding where
  id : String
  type : String
  severity : String
  url : String
  title : String
  description : String
  evidence : String
  source_tool : String
  confidence : Rat
  ai_analysis : Option AIAnalysis
deriving DecidableEq, Repr

/-- Building one output dictionary from an analyzed finding
(source lines 374-385). -/
def to_output_dict (a : VulnerabilityFindings) : OutputFinding :=
  { id := a.id, type := a.type, severity := a.severity, url := a.url,
    title := a.title, description := a.description, evidence := a.evidence,
    source_tool := a.source_tool, confidence := a.confidence,
    ai_analysis := a.ai_analysis }

/-- The filtering loop over `analyzed_findings` (source lines 371-386):
keep, in order, the findings not labelled false positive. -/
def collect_valid : List VulnerabilityFindings → List OutputFinding
  | [] => []
  | a :: rest =>
    if a.is_false_positive then collect_valid rest
    else to_output_dict a :: collect_valid rest

/-- `filter_findings_batch` (source lines 331-388): its return value is
the list of output dictionaries for the findings kept as valid. -/
def filter_findings_batch (verified_fps : List String) (envs : Nat → AIEnv)
    (findings : List RawFinding) : List OutputFinding :=
  collect_valid (analyze_batch verified_fps envs findings)

/-! ## Shared lemmas -/

/-- A string starting with a nonempty literal is not empty. -/
theorem append_ne_empty_left {a : String} (b : String) (ha : a.data ≠ []) :
    a ++ b ≠ "" := by
  intro h
  apply ha
  have hd := congrArg String.data h
  rw [String.data_append] at hd
  exact (List.append_eq_nil.mp hd).1

/-- A string starting with a nonempty literal followed by two appends is
not empty. -/
theorem append_append_ne_empty_left {a : String} (b c : String)
    (ha : a.data ≠ []) : a ++ b ++ c ≠ "" := by
  apply append_ne_empty_left
  rw [String.data_append]
  intro hx
  exact ha (List.append_eq_nil.mp hx).1

/-- If the verified-hash set is consulted and misses, `check_pattern_based_fp`
is the pattern cascade. -/
theorem check_pattern_based_fp_of_not_mem (verified_fps : List String)
    (finding : VulnerabilityFindings)
    (h : generate_finding_hash finding ∉ verified_fps) :
    check_pattern_based_fp verified_fps finding =
      tool_and_generic_pattern_check finding := by
  simp [check_pattern_based_fp, h]

/-- A cache hit short-circuits `check_pattern_based_fp`. -/
theorem check_pattern_based_fp_of_mem (verified_fps : List String)
    (finding : VulnerabilityFindings)
    (h : generate_finding_hash finding ∈ verified_fps) :
    check_pattern_based_fp verified_fps finding =
      (true, "Previously verified false positive") := by
  simp [check_pattern_based_fp, h]

/-- A pattern-cascade hit makes `check_pattern_based_fp` report a hit for
every verified set. -/
theorem check_pattern_based_fp_fst_of_cascade (verified_fps : List String)
    (finding : VulnerabilityFindings)
    (h : (tool_and_generic_pattern_check finding).1 = true) :
    (check_pattern_based_fp verified_fps finding).1 = true := by
  by_cases hm : generate_finding_hash finding ∈ verified_fps
  · rw [check_pattern_based_fp_of_mem verified_fps finding hm]
  · rw [check_pattern_based_fp_of_not_mem verified_fps finding hm]
    exact h

/-- Evaluation of `comprehensive_fp_analysis` when the pattern step hits. -/
theorem comprehensive_of_pattern_hit (verified_fps : List String)
    (env : AIEnv) (finding : VulnerabilityFindings)
    (h : (check_pattern_based_fp verified_fps finding).1 = true) :
    comprehensive_fp_analysis verified_fps env finding =
      { finding with
        is_false_positive := true,
        confidence := 0.9,
        ai_analysis := some
          { method := some "pattern_matching",
            reasoning := some (check_pattern_based_fp verified_fps finding).2,
            confidence := some 0.9 } } := by
  simp [comprehensive_fp_analysis, h]

/-- Evaluation of `comprehensive_fp_analysis` when the pattern step misses
and the context step hits. -/
theorem comprehensive_of_context_hit (verified_fps : List String)
    (env : AIEnv) (finding : VulnerabilityFindings)
    (h1 : (check_pattern_based_fp verified_fps finding).1 = false)
    (h2 : (analyze_context finding).1 = true) :
    comprehensive_fp_analysis verified_fps env finding =
      { finding with
        is_false_positive := true,
        confidence := 0.8,
        ai_analysis := some
          { method := some "context_analysis",
            reasoning := some (analyze_context finding).2,
            confidence := some 0.8 } } := by
  simp [comprehensive_fp_analysis, h1, h2]

/-- Evaluation of `comprehensive_fp_analysis` when both deterministic
steps miss: the AI step decides. -/
theorem comprehensive_of_ai_step (verified_fps : List String)
    (env : AIEnv) (finding : VulnerabilityFindings)
    (h1 : (check_pattern_based_fp verified_fps finding).1 = false)
    (h2 : (analyze_context finding).1 = false) :
    comprehensive_fp_analysis verified_fps env finding =
      { finding with
        ai_analysis := some (ai_analyze_finding env finding),
        is_false_positive :=
          (ai_analyze_finding env finding).is_false_positive.getD false,
        confidence := (ai_analyze_finding env finding).confidence.getD 0.5 }
    := by
  simp [comprehensive_fp_analysis, h1, h2]

/-! ## Claim theorems -/

/-- C2: a finding matching both a false-positive pattern (tool-specific or
generic) and a context-heuristic rule is labelled by the pattern step —
`is_false_positive = true`, confidence 0.9, method `"pattern_matching"`
(the source's string for the spec's `pattern_match`) — and never by the
context step with method `"context_analysis"` and confidence 0.8: the
pattern check runs and short-circuits before the context heuristic. -/
theorem c2_pattern_precedes_context (verified_fps : List String)
    (env : AIEnv) (finding : VulnerabilityFindings)
    (hp : (tool_and_generic_pattern_check finding).1 = true)
    (_hc : (analyze_context finding).1 = true) :
    (comprehensive_fp_analysis verified_fps env finding).is_false_positive
        = true ∧
    (comprehensive_fp_analysis verified_fps env finding).confidence = 0.9 ∧
    ∃ a, (comprehensive_fp_analysis verified_fps env finding).ai_analysis
        = some a ∧
      a.method = some "pattern_matching" ∧ a.confidence = some 0.9 ∧
      a.method ≠ some "context_analysis" ∧ a.confidence ≠ some 0.8 := by
  have hfst := check_pattern_based_fp_fst_of_cascade verified_fps finding hp
  rw [comprehensive_of_pattern_hit verified_fps env finding hfst]
  refine ⟨rfl, rfl, _, rfl, rfl, rfl, ?_, ?_⟩
  · simp
  · simp
    norm_num

/-- Witness for C2 at a concrete finding hitting both the `nuclei` URL
pattern and the `test.` development-host context rule. -/
theorem c2_pattern_precedes_context_witness :
    ((tool_and_generic_pattern_check
        { id := "1", type := "nuclei", severity := "high",
          url := "http://x.io/test.php?id=1", title := "T",
          description := "D", evidence := "E",
          source_tool := "nuclei" }).1 = true ∧
      (analyze_context
        { id := "1", type := "nuclei", severity := "high",
          url := "http://x.io/test.php?id=1", title := "T",
          description := "D", evidence := "E",
          source_tool := "nuclei" }).1 = true) ∧
    ((comprehensive_fp_analysis [] ⟨OllamaOutcome.err, HFOutcome.err⟩
        { id := "1", type := "nuclei", severity := "high",
          url := "http://x.io/test.php?id=1", title := "T",
          description := "D", evidence := "E",
          source_tool := "nuclei" }).is_false_positive = true ∧
      (comprehensive_fp_analysis [] ⟨OllamaOutcome.err, HFOutcome.err⟩
        { id := "1", type := "nuclei", severity := "high",
          url := "http://x.io/test.php?id=1", title := "T",
          description := "D", evidence := "E",
          source_tool := "nuclei" }).confidence = 0.9 ∧
      ∃ a, (comprehensive_fp_analysis [] ⟨OllamaOutcome.err, HFOutcome.err⟩
        { id := "1", type := "nuclei", severity := "high",
          url := "http://x.io/test.php?id=1", title := "T",
          description := "D", evidence := "E",
          source_tool := "nuclei" }).ai_analysis = some a ∧
        a.method = some "pattern_matching" ∧ a.confidence = some 0.9 ∧
        a.method ≠ some "context_analysis" ∧ a.confidence ≠ some 0.8) :=
  ⟨⟨by decide, by decide⟩,
    c2_pattern_precedes_context [] ⟨OllamaOutcome.err, HFOutcome.err⟩
      { id := "1", type := "nuclei", severity := "high",
        url := "http://x.io/test.php?id=1", title := "T",
        description := "D", evidence := "E", source_tool := "nuclei" }
      (by decide) (by decide)⟩

/-- First concrete finding for C1's counterexample. -/
def c1f1 : VulnerabilityFindings :=
  { id := "a", type := "xss", severity := "high",
    url := "https://prod.hostone.io/q", title := "Stored XSS",
    description := "first sighting", evidence := "payload shown",
    source_tool := "xss" }

/-- Second concrete finding for C1's counterexample: same
type/url/title/evidence as `c1f1`, different id and description. -/
def c1f2 : VulnerabilityFindings :=
  { id := "b", type := "xss", severity := "high",
    url := "https://prod.hostone.io/q", title := "Stored XSS",
    description := "second sighting", evidence := "payload shown",
    source_tool := "xss" }

/-- C1 counterexample: after confirming `c1f1` (adding its hash to the
verified set), classifying the identical-content `c1f2` does label it a
false positive with confidence 0.9 and reason "Previously verified false
positive", but the recorded method is `"pattern_matching"` — the same
label the pattern step uses — not a distinct `fingerprint_cache` marker,
because the source folds the fingerprint-cache lookup into
`check_pattern_based_fp` and `comprehensive_fp_analysis` tags every hit
of that function with `'method': 'pattern_matching'` (source lines
261-275).  So the claim's `method=fingerprint_cache` is false of the
code. -/
theorem c1_counterexample :
    (comprehensive_fp_analysis
        (save_verified_fp [] (generate_finding_hash c1f1))
        ⟨OllamaOutcome.err, HFOutcome.err⟩ c1f2).ai_analysis
      = some { method := some "pattern_matching",
               reasoning := some "Previously verified false positive",
               confidence := some 0.9 } ∧
    (some "pattern_matching" : Option String) ≠ some "fingerprint_cache"
    := by
  have hm : generate_finding_hash c1f2 ∈
      save_verified_fp [] (generate_finding_hash c1f1) := by
    have hh : generate_finding_hash c1f2 = generate_finding_hash c1f1 := by
      decide
    rw [hh]
    exact List.mem_cons_self _ _
  have hcheck := check_pattern_based_fp_of_mem _ c1f2 hm
  have hfst : (check_pattern_based_fp
      (save_verified_fp [] (generate_finding_hash c1f1)) c1f2).1 = true := by
    rw [hcheck]
  rw [comprehensive_of_pattern_hit _ _ c1f2 hfst, hcheck]
  exact ⟨rfl, by decide⟩

/-- C1 (amended): for any two findings with identical type, url, title
and evidence, `generate_finding_hash` returns the same hash; and after
one of them is confirmed as a false positive (its hash added to the
verified set via `save_verified_fp`), classifying the other returns
`is_false_positive = true` with confidence 0.9 and reason "Previously
verified false positive" — recorded under method `"pattern_matching"`,
since the code folds the fingerprint cache into the pattern step and
exposes no separate `fingerprint_cache` method. -/
theorem c1_fingerprint_determinism_and_cache
    (f1 f2 : VulnerabilityFindings) (verified_fps : List String)
    (env : AIEnv) (ht : f1.type = f2.type) (hu : f1.url = f2.url)
    (hti : f1.title = f2.title) (he : f1.evidence = f2.evidence) :
    generate_finding_hash f1 = generate_finding_hash f2 ∧
    (comprehensive_fp_analysis
        (save_verified_fp verified_fps (generate_finding_hash f1)) env f2
      ).is_false_positive = true ∧
    (comprehensive_fp_analysis
        (save_verified_fp verified_fps (generate_finding_hash f1)) env f2
      ).confidence = 0.9 ∧
    (comprehensive_fp_analysis
        (save_verified_fp verified_fps (generate_finding_hash f1)) env f2
      ).ai_analysis
      = some { method := some "pattern_matching",
               reasoning := some "Previously verified false positive",
               confidence := some 0.9 } := by
  have hh : generate_finding_hash f1 = generate_finding_hash f2 := by
    unfold generate_finding_hash
    rw [ht, hu, hti, he]
  have hm : generate_finding_hash f2 ∈
      save_verified_fp verified_fps (generate_finding_hash f1) := by
    rw [← hh]
    exact List.mem_cons_self _ _
  have hcheck := check_pattern_based_fp_of_mem _ f2 hm
  have hfst : (check_pattern_based_fp
      (save_verified_fp verified_fps (generate_finding_hash f1)) f2).1
      = true := by rw [hcheck]
  rw [comprehensive_of_pattern_hit _ env f2 hfst, hcheck]
  exact ⟨hh, rfl, rfl, rfl⟩

/-- Witness for C1 at two concrete identical-content findings. -/
theorem c1_fingerprint_determinism_and_cache_witness :
    (c1f1.type = c1f2.type ∧ c1f1.url = c1f2.url ∧
      c1f1.title = c1f2.title ∧ c1f1.evidence = c1f2.evidence) ∧
    (generate_finding_hash c1f1 = generate_finding_hash c1f2 ∧
      (comprehensive_fp_analysis
          (save_verified_fp [] (generate_finding_hash c1f1))
          ⟨OllamaOutcome.err, HFOutcome.err⟩ c1f2).is_false_positive = true ∧
      (comprehensive_fp_analysis
          (save_verified_fp [] (generate_finding_hash c1f1))
          ⟨OllamaOutcome.err, HFOutcome.err⟩ c1f2).confidence = 0.9 ∧
      (comprehensive_fp_analysis
          (save_verified_fp [] (generate_finding_hash c1f1))
          ⟨OllamaOutcome.err, HFOutcome.err⟩ c1f2).ai_analysis
        = some { method := some "pattern_matching",
                 reasoning := some "Previously verified false positive",
                 confidence := some 0.9 }) :=
  ⟨⟨rfl, rfl, rfl, rfl⟩,
    c1_fingerprint_determinism_and_cache c1f1 c1f2 []
      ⟨OllamaOutcome.err, HFOutcome.err⟩ rfl rfl rfl rfl⟩

/-- The Ollama call failed to yield a 200 response: exception, timeout,
or a non-200 status (the claim's notion of an unavailable backend). -/
def ollama_unavailable : OllamaOutcome → Bool
  | .err => true
  | .ok status _ _ => status != 200

/-- The HuggingFace call failed to yield a 200 response. -/
def hf_unavailable : HFOutcome → Bool
  | .err => true
  | .ok status _ => status != 200

/-- When both backends are unavailable, `ai_analyze_finding` returns the
ultimate-fallback dictionary (source lines 228-235). -/
theorem ai_analyze_finding_unavailable (env : AIEnv)
    (finding : VulnerabilityFindings)
    (ho : ollama_unavailable env.ollama = true)
    (hh : hf_unavailable env.hf = true) :
    ai_analyze_finding env finding = ai_unavailable_analysis := by
  rcases env with ⟨o, h⟩
  cases o <;> cases h <;>
    simp_all [ai_analyze_finding, huggingface_fallback, ollama_unavailable,
      hf_unavailable]

/-- Concrete finding for C3: hits no fingerprint, pattern, or context
rule, so classification falls through to the AI step. -/
def c3f : VulnerabilityFindings :=
  { id := "9", type := "sqli", severity := "high",
    url := "https://prod.shop.io/q", title := "SQL injection",
    description := "found by scanner", evidence := "id=9 or 1=1",
    source_tool := "sqlmap" }

/-- C3 counterexample: with every backend unavailable, classification
does return the fail-open values, but the attached analysis dictionary
is the ultimate-fallback dict, which carries no `method` key at all
(source lines 229-235) — in particular no `method=ai_model`.  The claim's
`method=ai_model` is therefore false of the code: no method value exists
on this path. -/
theorem c3_counterexample :
    (comprehensive_fp_analysis [] ⟨OllamaOutcome.err, HFOutcome.err⟩
        c3f).ai_analysis = some ai_unavailable_analysis ∧
    ai_unavailable_analysis.method = (none : Option String) ∧
    ∀ s : String, ai_unavailable_analysis.method ≠ some s := by
  refine ⟨?_, rfl, fun s h => Option.noConfusion h⟩
  rw [comprehensive_of_ai_step [] _ c3f (by decide) (by decide)]
  rfl

/-- C3 (amended): for every finding on which no fingerprint, pattern, or
context rule fires and with every AI backend unavailable (raises, times
out, or returns a non-200 status), classification returns — never throws;
the model is a total function, as the source catches every exception —
`is_false_positive = false`, confidence 0.0, and reason "AI analysis
unavailable"; the attached analysis dict is the AI step's fallback and
carries no `method` key (there is no `method=ai_model` marker in the
code). -/
theorem c3_ai_unavailable_fail_open (verified_fps : List String)
    (env : AIEnv) (finding : VulnerabilityFindings)
    (h1 : (check_pattern_based_fp verified_fps finding).1 = false)
    (h2 : (analyze_context finding).1 = false)
    (ho : ollama_unavailable env.ollama = true)
    (hh : hf_unavailable env.hf = true) :
    (comprehensive_fp_analysis verified_fps env finding).is_false_positive
        = false ∧
    (comprehensive_fp_analysis verified_fps env finding).confidence = 0 ∧
    (comprehensive_fp_analysis verified_fps env finding).ai_analysis
        = some ai_unavailable_analysis ∧
    ai_unavailable_analysis.reasoning = some "AI analysis unavailable" ∧
    ai_unavailable_analysis.method = none := by
  rw [comprehensive_of_ai_step verified_fps env finding h1 h2,
    ai_analyze_finding_unavailable env finding ho hh]
  exact ⟨rfl, rfl, rfl, rfl, rfl⟩

/-- Witness for C3 at a concrete clean finding with both backends down. -/
theorem c3_ai_unavailable_fail_open_witness :
    ((check_pattern_based_fp [] c3f).1 = false ∧
      (analyze_context c3f).1 = false ∧
      ollama_unavailable OllamaOutcome.err = true ∧
      hf_unavailable HFOutcome.err = true) ∧
    ((comprehensive_fp_analysis [] ⟨OllamaOutcome.err, HFOutcome.err⟩
        c3f).is_false_positive = false ∧
      (comprehensive_fp_analysis [] ⟨OllamaOutcome.err, HFOutcome.err⟩
        c3f).confidence = 0 ∧
      (comprehensive_fp_analysis [] ⟨OllamaOutcome.err, HFOutcome.err⟩
        c3f).ai_analysis = some ai_unavailable_analysis ∧
      ai_unavailable_analysis.reasoning = some "AI analysis unavailable" ∧
      ai_unavailable_analysis.method = none) :=
  ⟨⟨by decide, by decide, rfl, rfl⟩,
    c3_ai_unavailable_fail_open [] ⟨OllamaOutcome.err, HFOutcome.err⟩ c3f
      (by decide) (by decide) rfl rfl⟩

/-- Projection equations for `parse_ai_response_text`. -/
theorem parse_ai_response_text_confidence (t : String) :
    (parse_ai_response_text t).confidence =
      some (min 0.8 (max 0.3
        (((fp_text_score (lowerStr t) - real_text_score (lowerStr t)).natAbs
          : Rat) / 10))) := rfl

/-- The degraded heuristic's verdict is exactly `fp_score > real_score`. -/
theorem parse_ai_response_text_is_fp (t : String) :
    (parse_ai_response_text t).is_false_positive =
      some (decide (fp_text_score (lowerStr t) > real_text_score (lowerStr t)))
    := rfl

/-- The degraded heuristic's reasoning string. -/
theorem parse_ai_response_text_reasoning (t : String) :
    (parse_ai_response_text t).reasoning =
      some ("Text analysis based on response: " ++ strTake t 200 ++ "...")
    := rfl

/-- The clamp `min(0.8, max(0.3, x))` always lands in `[0, 1]`. -/
theorem conf_clamp_bounds (x : Rat) :
    0 ≤ min 0.8 (max 0.3 x) ∧ min 0.8 (max 0.3 x) ≤ 1 := by
  constructor
  · exact le_min (by norm_num)
      (le_trans (by norm_num : (0 : Rat) ≤ 0.3) (le_max_left _ _))
  · exact le_trans (min_le_left _ _) (by norm_num)

/-- A hit of the pattern cascade always carries a non-empty reason. -/
theorem tool_and_generic_pattern_check_reason_ne
    (finding : VulnerabilityFindings)
    (h : (tool_and_generic_pattern_check finding).1 = true) :
    (tool_and_generic_pattern_check finding).2 ≠ "" := by
  simp only [tool_and_generic_pattern_check] at h ⊢
  repeat' split
  all_goals first
    | exact append_ne_empty_left _ (by decide)
    | decide
    | simp_all

/-- A hit of `check_pattern_based_fp` always carries a non-empty reason. -/
theorem check_pattern_based_fp_reason_ne (verified_fps : List String)
    (finding : VulnerabilityFindings)
    (h : (check_pattern_based_fp verified_fps finding).1 = true) :
    (check_pattern_based_fp verified_fps finding).2 ≠ "" := by
  by_cases hm : generate_finding_hash finding ∈ verified_fps
  · rw [check_pattern_based_fp_of_mem verified_fps finding hm]
    decide
  · rw [check_pattern_based_fp_of_not_mem verified_fps finding hm] at h ⊢
    exact tool_and_generic_pattern_check_reason_ne finding h

/-- A hit of the context heuristic always carries a non-empty reason. -/
theorem analyze_context_reason_ne (finding : VulnerabilityFindings)
    (h : (analyze_context finding).1 = true) :
    (analyze_context finding).2 ≠ "" := by
  simp only [analyze_context] at h ⊢
  repeat' split
  all_goals first
    | exact append_ne_empty_left _ (by decide)
    | decide
    | simp_all

/-- Did the Ollama call return HTTP 200 with successfully extracted and
parsed JSON?  (The only path on which the AI's own numbers flow into the
finding unmodified.) -/
def ollama_parsed_json : OllamaOutcome → Bool
  | .ok 200 (some _) _ => true
  | _ => false

/-- Unless Ollama returned parsed JSON, the AI step yields either the
ultimate-fallback dictionary or a degraded-text-heuristic result. -/
theorem ai_analyze_finding_cases (o : OllamaOutcome) (hfo : HFOutcome)
    (finding : VulnerabilityFindings) (h : ollama_parsed_json o = false) :
    ai_analyze_finding ⟨o, hfo⟩ finding = ai_unavailable_analysis ∨
    ∃ t, ai_analyze_finding ⟨o, hfo⟩ finding = parse_ai_response_text t
    := by
  have hfb : huggingface_fallback ⟨o, hfo⟩ = ai_unavailable_analysis ∨
      ∃ t, huggingface_fallback ⟨o, hfo⟩ = parse_ai_response_text t := by
    cases hfo with
    | err => exact Or.inl rfl
    | ok s g =>
      by_cases hs : s = 200
      · subst hs
        cases g with
        | none => exact Or.inl (by simp [huggingface_fallback])
        | some t => exact Or.inr ⟨t, by simp [huggingface_fallback]⟩
      · exact Or.inl (by simp [huggingface_fallback, hs])
  cases o with
  | err => exact hfb
  | ok s j txt =>
    by_cases hs : s = 200
    · subst hs
      cases j with
      | none => exact Or.inr ⟨txt, by simp [ai_analyze_finding]⟩
      | some a => simp [ollama_parsed_json] at h
    · have hred : ai_analyze_finding ⟨OllamaOutcome.ok s j txt, hfo⟩ finding
          = huggingface_fallback ⟨OllamaOutcome.ok s j txt, hfo⟩ := by
        simp [ai_analyze_finding, hs]
      rw [hred]
      exact hfb

/-- A parsed AI JSON object claiming `is_false_positive` with an
out-of-range confidence and no reasoning key. -/
def c4_bad_json : AIAnalysis :=
  { is_false_positive := some true, confidence := some 2 }

/-- C4 counterexample: when the AI backend returns parsed JSON, its
`confidence` is copied into the finding unclamped and its (possibly
missing) `reasoning` unvalidated (source lines 290-294).  With a
well-formed HTTP 200 Ollama response whose JSON carries
`confidence: 2.0`, the classified finding ends with confidence 2 > 1 and
`is_false_positive = true` with no reasoning — violating both halves of
the claimed invariant. -/
theorem c4_counterexample :
    (comprehensive_fp_analysis []
        ⟨OllamaOutcome.ok 200 (some c4_bad_json) "", HFOutcome.err⟩
        c3f).confidence = 2 ∧
    ¬((comprehensive_fp_analysis []
        ⟨OllamaOutcome.ok 200 (some c4_bad_json) "", HFOutcome.err⟩
        c3f).confidence ≤ 1) ∧
    (comprehensive_fp_analysis []
        ⟨OllamaOutcome.ok 200 (some c4_bad_json) "", HFOutcome.err⟩
        c3f).is_false_positive = true ∧
    (comprehensive_fp_analysis []
        ⟨OllamaOutcome.ok 200 (some c4_bad_json) "", HFOutcome.err⟩
        c3f).ai_analysis = some c4_bad_json ∧
    c4_bad_json.reasoning = none := by
  rw [comprehensive_of_ai_step []
    ⟨OllamaOutcome.ok 200 (some c4_bad_json) "", HFOutcome.err⟩ c3f
    (by decide) (by decide)]
  refine ⟨rfl, ?_, rfl, rfl, rfl⟩
  show ¬((2 : Rat) ≤ 1)
  norm_num

/-- C4 (amended): for every finding whose classification is decided by the
fingerprint/pattern step, the context step, the AI-unavailable fallback,
or the degraded text heuristic — i.e. by anything except a successfully
parsed AI JSON object — the resulting confidence lies in [0, 1], and
whenever `is_false_positive = true` the attached analysis carries a
non-empty reasoning string.  (When the AI's structured JSON is parsed,
its confidence is copied unclamped and its reasoning unvalidated, so the
invariant can fail there — see the counterexample.) -/
theorem c4_confidence_bounds (verified_fps : List String) (env : AIEnv)
    (finding : VulnerabilityFindings)
    (h : ollama_parsed_json env.ollama = false) :
    (0 ≤ (comprehensive_fp_analysis verified_fps env finding).confidence ∧
      (comprehensive_fp_analysis verified_fps env finding).confidence ≤ 1) ∧
    ((comprehensive_fp_analysis verified_fps env finding).is_false_positive
        = true →
      ∃ a r, (comprehensive_fp_analysis verified_fps env finding).ai_analysis
          = some a ∧ a.reasoning = some r ∧ r ≠ "") := by
  obtain ⟨o, hfo⟩ := env
  by_cases hp : (check_pattern_based_fp verified_fps finding).1 = true
  · rw [comprehensive_of_pattern_hit verified_fps ⟨o, hfo⟩ finding hp]
    refine ⟨⟨?_, ?_⟩, fun _ => ⟨_, _, rfl, rfl,
      check_pattern_based_fp_reason_ne verified_fps finding hp⟩⟩
    · show (0 : Rat) ≤ 0.9
      norm_num
    · show (0.9 : Rat) ≤ 1
      norm_num
  · have hp' : (check_pattern_based_fp verified_fps finding).1 = false :=
      Bool.not_eq_true _ ▸ eq_false_of_ne_true hp
    by_cases hc : (analyze_context finding).1 = true
    · rw [comprehensive_of_context_hit verified_fps ⟨o, hfo⟩ finding hp' hc]
      refine ⟨⟨?_, ?_⟩, fun _ => ⟨_, _, rfl, rfl,
        analyze_context_reason_ne finding hc⟩⟩
      · show (0 : Rat) ≤ 0.8
        norm_num
      · show (0.8 : Rat) ≤ 1
        norm_num
    · have hc' : (analyze_context finding).1 = false :=
        Bool.not_eq_true _ ▸ eq_false_of_ne_true hc
      rw [comprehensive_of_ai_step verified_fps ⟨o, hfo⟩ finding hp' hc']
      rcases ai_analyze_finding_cases o hfo finding h with hcase | ⟨t, hcase⟩
      · rw [hcase]
        refine ⟨⟨?_, ?_⟩,
          fun hfp => absurd (show false = true from hfp) (by decide)⟩
        · show (0 : Rat) ≤ 0
          norm_num
        · show (0 : Rat) ≤ 1
          norm_num
      · rw [hcase]
        constructor
        · show 0 ≤ (parse_ai_response_text t).confidence.getD 0.5 ∧
            (parse_ai_response_text t).confidence.getD 0.5 ≤ 1
          rw [parse_ai_response_text_confidence, Option.getD_some]
          exact conf_clamp_bounds _
        · intro _
          refine ⟨_, _, rfl, parse_ai_response_text_reasoning t,
            append_append_ne_empty_left _ _ (by decide)⟩

/-- Witness for C4 at a concrete finding and a concrete
non-parsed-JSON environment. -/
theorem c4_confidence_bounds_witness :
    ollama_parsed_json (AIEnv.mk OllamaOutcome.err HFOutcome.err).ollama
        = false ∧
    ((0 ≤ (comprehensive_fp_analysis []
          ⟨OllamaOutcome.err, HFOutcome.err⟩ c3f).confidence ∧
      (comprehensive_fp_analysis []
          ⟨OllamaOutcome.err, HFOutcome.err⟩ c3f).confidence ≤ 1) ∧
     ((comprehensive_fp_analysis []
          ⟨OllamaOutcome.err, HFOutcome.err⟩ c3f).is_false_positive
         = true →
       ∃ a r, (comprehensive_fp_analysis []
           ⟨OllamaOutcome.err, HFOutcome.err⟩ c3f).ai_analysis
           = some a ∧ a.reasoning = some r ∧ r ≠ "")) :=
  ⟨rfl, c4_confidence_bounds [] ⟨OllamaOutcome.err, HFOutcome.err⟩ c3f rfl⟩

/-- Candidates for one field of the spec-side pattern check: every
tool pattern paired with the field's display name and text. -/
def field_candidates (field_name text : String)
    (pats : List (String × Re)) : List (String × String × String × Re) :=
  pats.map (fun p => (field_name, text, p.1, p.2))

/-- Spec-side pattern check, written from C5's words: tool-specific
patterns for `finding.source_tool` tested against url, then evidence,
then title, returning `(true, "<Field> matches FP pattern: <pattern>")`
on the first field hit; then the four generic patterns tested against the
lower-cased concatenation of url, title and evidence (space-joined, as in
the code), returning `(true, "Generic FP pattern matched: <pattern>")`;
otherwise `(false, "")`.  To be compared with the source-side
`tool_and_generic_pattern_check`. -/
def pattern_check_spec (finding : VulnerabilityFindings) : Bool × String :=
  let source_patterns := fp_indicators finding.source_tool
  let tool_candidates :=
    field_candidates "URL" finding.url source_patterns ++
    field_candidates "Evidence" finding.evidence source_patterns ++
    field_candidates "Title" finding.title source_patterns
  match tool_candidates.find? (fun c => Re.searchCI c.2.2.2 c.2.1) with
  | some c => (true, c.1 ++ " matches FP pattern: " ++ c.2.2.1)
  | none =>
    let combined :=
      lowerStr (finding.url ++ " " ++ finding.title ++ " " ++
        finding.evidence)
    match generic_fp_patterns.find? (fun p => Re.search p.2 combined) with
    | some p => (true, "Generic FP pattern matched: " ++ p.1)
    | none => (false, "")

/-- The source's pattern cascade coincides with the spec-side one. -/
theorem tool_and_generic_pattern_check_eq_spec
    (finding : VulnerabilityFindings) :
    tool_and_generic_pattern_check finding = pattern_check_spec finding
    := by
  unfold tool_and_generic_pattern_check pattern_check_spec field_candidates
  cases h1 : (fp_indicators finding.source_tool).find?
      (fun p => Re.searchCI p.2 finding.url) with
  | some p =>
    simp [List.find?_append, List.find?_map, Function.comp_def, h1]
  | none =>
    cases h2 : (fp_indicators finding.source_tool).find?
        (fun p => Re.searchCI p.2 finding.evidence) with
    | some p =>
      simp [List.find?_append, List.find?_map, Function.comp_def, h1, h2]
    | none =>
      cases h3 : (fp_indicators finding.source_tool).find?
          (fun p => Re.searchCI p.2 finding.title) with
      | some p =>
        simp [List.find?_append, List.find?_map, Function.comp_def, h1, h2, h3]
      | none =>
        simp [List.find?_append, List.find?_map, Function.comp_def, h1, h2, h3]

/-- C5: when the verified-hash set does not short-circuit it, the pattern
check proceeds first-match-wins exactly as described: tool-specific
patterns for `source_tool` against url, then evidence, then title with
reason `"<Field> matches FP pattern: <pattern>"`, then the four generic
patterns against the lower-cased concatenation of url, title and
evidence with reason `"Generic FP pattern matched: <pattern>"`, otherwise
`(false, "")`; and an empty or unknown `source_tool` yields an empty
tool-pattern list, skipping the tool-specific step without error. -/
theorem c5_pattern_check_order (verified_fps : List String)
    (finding : VulnerabilityFindings)
    (h : generate_finding_hash finding ∉ verified_fps) :
    check_pattern_based_fp verified_fps finding
        = pattern_check_spec finding ∧
    fp_indicators "" = [] ∧
    (∀ tool : String, tool ≠ "nuclei" → tool ≠ "xss" → tool ≠ "sqli" →
      fp_indicators tool = []) := by
  refine ⟨?_, rfl, ?_⟩
  · rw [check_pattern_based_fp_of_not_mem verified_fps finding h]
    exact tool_and_generic_pattern_check_eq_spec finding
  · intro tool h1 h2 h3
    simp [fp_indicators, h1, h2, h3]

/-- Witness for C5 at a concrete finding with an empty verified set. -/
theorem c5_pattern_check_order_witness :
    generate_finding_hash c1f1 ∉ ([] : List String) ∧
    (check_pattern_based_fp [] c1f1 = pattern_check_spec c1f1 ∧
      fp_indicators "" = [] ∧
      (∀ tool : String, tool ≠ "nuclei" → tool ≠ "xss" → tool ≠ "sqli" →
        fp_indicators tool = [])) :=
  ⟨by simp, c5_pattern_check_order [] c1f1 (by simp)⟩

/-- Number of false-positive-suggestive phrases found in the (already
lower-cased) text — the claim's reading of `fp_score`. -/
def fp_phrases_found (lower_text : String) : Nat :=
  (fp_text_indicators.filter (fun ind => strIn ind lower_text)).length

/-- Number of vulnerability-suggestive phrases found in the (already
lower-cased) text — the claim's reading of `real_score`. -/
def vuln_phrases_found (lower_text : String) : Nat :=
  (real_text_indicators.filter (fun ind => strIn ind lower_text)).length

/-- The source's sum-of-ones score equals the number of phrases found. -/
theorem score_eq_phrase_count (l : List String) (t : String) :
    (l.map (fun ind => if strIn ind t then (1 : Int) else 0)).sum
      = ((l.filter (fun ind => strIn ind t)).length : Int) := by
  induction l with
  | nil => simp
  | cons a l ih =>
    by_cases h : strIn a t = true
    · simp [List.filter_cons, h, ih]
      omega
    · simp [List.filter_cons, h, ih]

/-- C6: for every raw AI response text on which structured JSON parsing
fails, the degraded text heuristic labels the finding a false positive
exactly when the count of false-positive-suggestive phrases found in the
lower-cased text strictly exceeds the count of vulnerability-suggestive
phrases, and sets the confidence to
`min(0.8, max(0.3, |fp_count − vuln_count| / 10))`. -/
theorem c6_degraded_text_heuristic (t : String) :
    (parse_ai_response_text t).is_false_positive
      = some (decide (fp_phrases_found (lowerStr t)
          > vuln_phrases_found (lowerStr t))) ∧
    (parse_ai_response_text t).confidence
      = some (min 0.8 (max 0.3
          ((((fp_phrases_found (lowerStr t) : Int)
            - (vuln_phrases_found (lowerStr t) : Int)).natAbs : Rat) / 10)))
    := by
  have hfp : fp_text_score (lowerStr t)
      = (fp_phrases_found (lowerStr t) : Int) :=
    score_eq_phrase_count fp_text_indicators (lowerStr t)
  have hrs : real_text_score (lowerStr t)
      = (vuln_phrases_found (lowerStr t) : Int) :=
    score_eq_phrase_count real_text_indicators (lowerStr t)
  constructor
  · rw [parse_ai_response_text_is_fp, hfp, hrs]
    simp
  · rw [parse_ai_response_text_confidence, hfp, hrs]

/-- An input finding record with every key missing. -/
def c8_empty_raw : RawFinding := {}

/-- C8 counterexample: a finding record with no keys at all is converted
without error, but its missing `type` and `source_tool` become
`"unknown"` (source lines 341 and 347), not the empty string the claim
states; the whole batch still classifies it and returns a result. -/
theorem c8_counterexample :
    (to_vulnerability_finding 0 c8_empty_raw).type = "unknown" ∧
    (to_vulnerability_finding 0 c8_empty_raw).source_tool = "unknown" ∧
    ("unknown" : String) ≠ "" ∧
    filter_findings_batch [] (fun _ => ⟨OllamaOutcome.err, HFOutcome.err⟩)
        [c8_empty_raw]
      = [{ id := "0", type := "unknown", severity := "medium", url := "",
           title := "", description := "", evidence := "",
           source_tool := "unknown", confidence := 0,
           ai_analysis := some ai_unavailable_analysis }] :=
  ⟨rfl, rfl, by decide, rfl⟩

/-- C8 (amended): batch conversion of an input record never raises:
missing `url`, `title`, `description`, `evidence` become the empty
string, missing `type` and `source_tool` become `"unknown"`, a missing
`severity` defaults to `"medium"`, a missing `id` defaults to the string
of the finding's list index; and batch classification produces an
analyzed outcome for every input finding. -/
theorem c8_defaults (i : Nat) (d : RawFinding) :
    (d.id = none → (to_vulnerability_finding i d).id = toString i) ∧
    (d.type = none → (to_vulnerability_finding i d).type = "unknown") ∧
    (d.severity = none →
      (to_vulnerability_finding i d).severity = "medium") ∧
    (d.url = none → (to_vulnerability_finding i d).url = "") ∧
    (d.title = none → (to_vulnerability_finding i d).title = "") ∧
    (d.description = none →
      (to_vulnerability_finding i d).description = "") ∧
    (d.evidence = none → (to_vulnerability_finding i d).evidence = "") ∧
    (d.source_tool = none →
      (to_vulnerability_finding i d).source_tool = "unknown") ∧
    ∀ (verified_fps : List String) (envs : Nat → AIEnv)
      (findings : List RawFinding),
      (analyze_batch verified_fps envs findings).length = findings.length
    := by
  refine ⟨?_, ?_, ?_, ?_, ?_, ?_, ?_, ?_, ?_⟩
  case _ => intro h; simp [to_vulnerability_finding, h]
  case _ => intro h; simp [to_vulnerability_finding, h]
  case _ => intro h; simp [to_vulnerability_finding, h]
  case _ => intro h; simp [to_vulnerability_finding, h]
  case _ => intro h; simp [to_vulnerability_finding, h]
  case _ => intro h; simp [to_vulnerability_finding, h]
  case _ => intro h; simp [to_vulnerability_finding, h]
  case _ => intro h; simp [to_vulnerability_finding, h]
  case _ =>
    intro verified_fps envs findings
    simp [analyze_batch]

/-- Witness for C8 at the all-keys-missing record and index 0. -/
theorem c8_defaults_witness :
    c8_empty_raw.id = none ∧
    ((to_vulnerability_finding 0 c8_empty_raw).id = toString 0 ∧
      (to_vulnerability_finding 0 c8_empty_raw).type = "unknown" ∧
      (to_vulnerability_finding 0 c8_empty_raw).severity = "medium" ∧
      (to_vulnerability_finding 0 c8_empty_raw).url = "" ∧
      (to_vulnerability_finding 0 c8_empty_raw).title = "" ∧
      (to_vulnerability_finding 0 c8_empty_raw).description = "" ∧
      (to_vulnerability_finding 0 c8_empty_raw).evidence = "" ∧
      (to_vulnerability_finding 0 c8_empty_raw).source_tool = "unknown" ∧
      (analyze_batch [] (fun _ => ⟨OllamaOutcome.err, HFOutcome.err⟩)
          [c8_empty_raw]).length = [c8_empty_raw].length) :=
  ⟨rfl,
    (c8_defaults 0 c8_empty_raw).1 rfl,
    (c8_defaults 0 c8_empty_raw).2.1 rfl,
    (c8_defaults 0 c8_empty_raw).2.2.1 rfl,
    (c8_defaults 0 c8_empty_raw).2.2.2.1 rfl,
    (c8_defaults 0 c8_empty_raw).2.2.2.2.1 rfl,
    (c8_defaults 0 c8_empty_raw).2.2.2.2.2.1 rfl,
    (c8_defaults 0 c8_empty_raw).2.2.2.2.2.2.1 rfl,
    (c8_defaults 0 c8_empty_raw).2.2.2.2.2.2.2.1 rfl,
    (c8_defaults 0 c8_empty_raw).2.2.2.2.2.2.2.2 []
      (fun _ => ⟨OllamaOutcome.err, HFOutcome.err⟩) [c8_empty_raw]⟩

/-- Classification never alters the eight input fields of a finding. -/
theorem comprehensive_preserves_fields (verified_fps : List String)
    (env : AIEnv) (f : VulnerabilityFindings) :
    (comprehensive_fp_analysis verified_fps env f).id = f.id ∧
    (comprehensive_fp_analysis verified_fps env f).type = f.type ∧
    (comprehensive_fp_analysis verified_fps env f).severity = f.severity ∧
    (comprehensive_fp_analysis verified_fps env f).url = f.url ∧
    (comprehensive_fp_analysis verified_fps env f).title = f.title ∧
    (comprehensive_fp_analysis verified_fps env f).description
        = f.description ∧
    (comprehensive_fp_analysis verified_fps env f).evidence = f.evidence ∧
    (comprehensive_fp_analysis verified_fps env f).source_tool
        = f.source_tool := by
  by_cases hp : (check_pattern_based_fp verified_fps f).1 = true
  · rw [comprehensive_of_pattern_hit verified_fps env f hp]
    exact ⟨rfl, rfl, rfl, rfl, rfl, rfl, rfl, rfl⟩
  · have hp' : (check_pattern_based_fp verified_fps f).1 = false :=
      Bool.not_eq_true _ ▸ eq_false_of_ne_true hp
    by_cases hc : (analyze_context f).1 = true
    · rw [comprehensive_of_context_hit verified_fps env f hp' hc]
      exact ⟨rfl, rfl, rfl, rfl, rfl, rfl, rfl, rfl⟩
    · have hc' : (analyze_context f).1 = false :=
        Bool.not_eq_true _ ▸ eq_false_of_ne_true hc
      rw [comprehensive_of_ai_step verified_fps env f hp' hc']
      exact ⟨rfl, rfl, rfl, rfl, rfl, rfl, rfl, rfl⟩

/-- The output-collection loop keeps, in order, exactly the findings not
labelled false positive. -/
theorem collect_valid_eq_filter (l : List VulnerabilityFindings) :
    collect_valid l
      = (l.filter (fun a => !a.is_false_positive)).map to_output_dict := by
  induction l with
  | nil => rfl
  | cons a l ih =>
    by_cases h : a.is_false_positive = true <;>
      simp [collect_valid, List.filter_cons, h, ih]

/-- C9: batch filtering does not alter the eight input fields of any
finding — classification preserves them and the output dictionary copies
them — and the returned list consists exactly of the analyzed findings
not classified as false positives, in their original relative input
order (a `List.filter` of the analyzed batch). -/
theorem c9_batch_frame_and_order (verified_fps : List String)
    (envs : Nat → AIEnv) (findings : List RawFinding) :
    filter_findings_batch verified_fps envs findings
      = ((analyze_batch verified_fps envs findings).filter
          (fun a => !a.is_false_positive)).map to_output_dict ∧
    (∀ (env : AIEnv) (f : VulnerabilityFindings),
      (comprehensive_fp_analysis verified_fps env f).id = f.id ∧
      (comprehensive_fp_analysis verified_fps env f).type = f.type ∧
      (comprehensive_fp_analysis verified_fps env f).severity
          = f.severity ∧
      (comprehensive_fp_analysis verified_fps env f).url = f.url ∧
      (comprehensive_fp_analysis verified_fps env f).title = f.title ∧
      (comprehensive_fp_analysis verified_fps env f).description
          = f.description ∧
      (comprehensive_fp_analysis verified_fps env f).evidence
          = f.evidence ∧
      (comprehensive_fp_analysis verified_fps env f).source_tool
          = f.source_tool) ∧
    (∀ a : VulnerabilityFindings,
      (to_output_dict a).id = a.id ∧ (to_output_dict a).type = a.type ∧
      (to_output_dict a).severity = a.severity ∧
      (to_output_dict a).url = a.url ∧
      (to_output_dict a).title = a.title ∧
      (to_output_dict a).description = a.description ∧
      (to_output_dict a).evidence = a.evidence ∧
      (to_output_dict a).source_tool = a.source_tool) :=
  ⟨collect_valid_eq_filter _,
    fun env f => comprehensive_preserves_fields verified_fps env f,
    fun _ => ⟨rfl, rfl, rfl, rfl, rfl, rfl, rfl, rfl⟩⟩

/-- C10: for every finding that reaches the context-heuristic step and
matches none of the earlier context rules (development-host indicator,
test-content keyword, `/test/` path segment, non-executable extension),
if its evidence contains `"404"` or `"403"` as a raw substring anywhere —
including inside a longer digit run such as `"4040"` — the finding is
classified a false positive with confidence 0.8 and reason
"HTTP error status in evidence". -/
theorem c10_http_error_substring (verified_fps : List String)
    (env : AIEnv) (finding : VulnerabilityFindings)
    (hp : (check_pattern_based_fp verified_fps finding).1 = false)
    (hdev : dev_indicators.find?
      (fun ind => strIn ind (lowerStr finding.url)) = none)
    (htest : test_indicators.find?
      (fun ind => strIn ind (lowerStr (finding.title ++ " " ++
        finding.description ++ " " ++ finding.evidence))) = none)
    (hdir : Re.search (Re.lit "/test/") finding.url = false)
    (hext : Re.searchEnd nonexec_ext_re finding.url = false)
    (h404 : strIn "404" finding.evidence = true ∨
      strIn "403" finding.evidence = true) :
    analyze_context finding = (true, "HTTP error status in evidence") ∧
    (comprehensive_fp_analysis verified_fps env finding).is_false_positive
        = true ∧
    (comprehensive_fp_analysis verified_fps env finding).confidence
        = 0.8 ∧
    (comprehensive_fp_analysis verified_fps env finding).ai_analysis
      = some { method := some "context_analysis",
               reasoning := some "HTTP error status in evidence",
               confidence := some 0.8 } := by
  have hctx : analyze_context finding
      = (true, "HTTP error status in evidence") := by
    simp only [analyze_context, hdev, htest, hdir, hext]
    rcases h404 with h | h <;> simp [h]
  have hc1 : (analyze_context finding).1 = true := by rw [hctx]
  rw [comprehensive_of_context_hit verified_fps env finding hp hc1, hctx]
  exact ⟨rfl, rfl, rfl, rfl⟩

/-- Concrete finding for C10's witness: clean except for `"4040"` inside
its evidence, which contains `"404"` only as part of a longer digit
run. -/
def c10f : VulnerabilityFindings :=
  { id := "7", type := "exposure", severity := "low",
    url := "https://prod.site.com/a.php", title := "Broken link check",
    description := "scanner output", evidence := "HTTP id=4040 found",
    source_tool := "httpx" }

/-- Witness for C10 at `c10f`. -/
theorem c10_http_error_substring_witness :
    ((check_pattern_based_fp [] c10f).1 = false ∧
      dev_indicators.find?
        (fun ind => strIn ind (lowerStr c10f.url)) = none ∧
      test_indicators.find?
        (fun ind => strIn ind (lowerStr (c10f.title ++ " " ++
          c10f.description ++ " " ++ c10f.evidence))) = none ∧
      Re.search (Re.lit "/test/") c10f.url = false ∧
      Re.searchEnd nonexec_ext_re c10f.url = false ∧
      (strIn "404" c10f.evidence = true ∨
        strIn "403" c10f.evidence = true)) ∧
    (analyze_context c10f = (true, "HTTP error status in evidence") ∧
      (comprehensive_fp_analysis [] ⟨OllamaOutcome.err, HFOutcome.err⟩
        c10f).is_false_positive = true ∧
      (comprehensive_fp_analysis [] ⟨OllamaOutcome.err, HFOutcome.err⟩
        c10f).confidence = 0.8 ∧
      (comprehensive_fp_analysis [] ⟨OllamaOutcome.err, HFOutcome.err⟩
        c10f).ai_analysis
        = some { method := some "context_analysis",
                 reasoning := some "HTTP error status in evidence",
                 confidence := some 0.8 }) :=
  ⟨⟨by decide, by decide, by decide, by decide, by decide,
      Or.inl (by decide)⟩,
    c10_http_error_substring [] ⟨OllamaOutcome.err, HFOutcome.err⟩ c10f
      (by decide) (by decide) (by decide) (by decide) (by decide)
      (Or.inl (by decide))⟩

/-- C7's concrete batch: 3 findings hit the pattern step (nuclei URL
pattern, xss evidence pattern, generic `mock` keyword), 2 hit the context
step (`localhost` host, `404` evidence), and 5 clean findings reach the
AI step. -/
def c7_batch : List RawFinding :=
  [{ id := some "p1", type := some "nuclei", severity := some "high",
     url := some "http://example.com/a", title := some "Tmpl hit",
     description := some "raw", evidence := some "resp body",
     source_tool := some "nuclei" },
   { id := some "p2", type := some "xss", severity := some "medium",
     url := some "https://x.com/a", title := some "XSS found",
     description := some "raw", evidence := some "console.log(1)",
     source_tool := some "xss" },
   { id := some "p3", type := some "exposure", severity := some "low",
     url := some "https://h.io/a", title := some "Mock data leak",
     description := some "raw", evidence := some "resp",
     source_tool := some "gau" },
   { id := some "c1", type := some "redirect", severity := some "low",
     url := some "http://localhost:9/admin", title := some "Open redirect",
     description := some "raw", evidence := some "302 Location /admin",
     source_tool := some "httpx" },
   { id := some "c2", type := some "broken", severity := some "info",
     url := some "https://prod.shop.io/p", title := some "Broken page",
     description := some "raw", evidence := some "Status 404 Not Found",
     source_tool := some "httpx" },
   { id := some "a1", type := some "sqli", severity := some "high",
     url := some "https://prod.shop.io/i1", title := some "SQL injection",
     description := some "raw", evidence := some "id=1",
     source_tool := some "sqlmap" },
   { id := some "a2", type := some "sqli", severity := some "high",
     url := some "https://prod.shop.io/i2", title := some "SQL injection",
     description := some "raw", evidence := some "id=2",
     source_tool := some "sqlmap" },
   { id := some "a3", type := some "sqli", severity := some "high",
     url := some "https://prod.shop.io/i3", title := some "SQL injection",
     description := some "raw", evidence := some "id=3",
     source_tool := some "sqlmap" },
   { id := some "a4", type := some "sqli", severity := some "high",
     url := some "https://prod.shop.io/i4", title := some "SQL injection",
     description := some "raw", evidence := some "id=4",
     source_tool := some "sqlmap" },
   { id := some "a5", type := some "sqli", severity := some "high",
     url := some "https://prod.shop.io/i5", title := some "SQL injection",
     description := some "raw", evidence := some "id=5",
     source_tool := some "sqlmap" }]

/-- The expected retained output of C7's batch: the five AI-unavailable
findings come back as valid, unchanged, in order, with the fail-open
confidence 0 and the fallback analysis attached. -/
def c7_expected_valid : List OutputFinding :=
  [{ id := "a1", type := "sqli", severity := "high",
     url := "https://prod.shop.io/i1", title := "SQL injection",
     description := "raw", evidence := "id=1", source_tool := "sqlmap",
     confidence := 0, ai_analysis := some ai_unavailable_analysis },
   { id := "a2", type := "sqli", severity := "high",
     url := "https://prod.shop.io/i2", title := "SQL injection",
     description := "raw", evidence := "id=2", source_tool := "sqlmap",
     confidence := 0, ai_analysis := some ai_unavailable_analysis },
   { id := "a3", type := "sqli", severity := "high",
     url := "https://prod.shop.io/i3", title := "SQL injection",
     description := "raw", evidence := "id=3", source_tool := "sqlmap",
     confidence := 0, ai_analysis := some ai_unavailable_analysis },
   { id := "a4", type := "sqli", severity := "high",
     url := "https://prod.shop.io/i4", title := "SQL injection",
     description := "raw", evidence := "id=4", source_tool := "sqlmap",
     confidence := 0, ai_analysis := some ai_unavailable_analysis },
   { id := "a5", type := "sqli", severity := "high",
     url := "https://prod.shop.io/i5", title := "SQL injection",
     description := "raw", evidence := "id=5", source_tool := "sqlmap",
     confidence := 0, ai_analysis := some ai_unavailable_analysis }]

/-- C7: batch classification always completes with an analyzed outcome
for every input finding (the batch functions are total; no exception
escapes); on the concrete 10-finding batch with 3 pattern hits, 2
context hits, and 5 findings reaching an unavailable AI, the loop
counter `false_positive_count` ends at 5 (it is printed, not part of the
return value) and `filter_findings_batch` returns exactly the 5
AI-unavailable findings as valid. -/
theorem c7_batch_scenario :
    (analyze_batch [] (fun _ => ⟨OllamaOutcome.err, HFOutcome.err⟩)
        c7_batch).length = 10 ∧
    false_positive_count
      (analyze_batch [] (fun _ => ⟨OllamaOutcome.err, HFOutcome.err⟩)
        c7_batch) = 5 ∧
    filter_findings_batch []
        (fun _ => ⟨OllamaOutcome.err, HFOutcome.err⟩) c7_batch
      = c7_expected_valid :=
  ⟨rfl, rfl, rfl⟩
